import Mathlib

/-
Verification of the voice-assistant command backend (src/assistant.py).

The embedding models Python strings as lists of characters (the commands in
question are ASCII), timestamps as integers (seconds; datetime.timedelta with
seconds=n adds n, minutes=n adds 60*n; isoformat round-trips are the
identity, so a reminder time is stored directly as an integer), and the two
HTTP collaborators as parameters: the weather lookup as an abstract function
from the optional location to a WeatherResult, and the news lookup by its
embedded body get_news_data, parameterised by the presence of the API key and
by the single network response the Guardian API gives to the request.
-/

namespace VoiceAssistant

/-- Python str, modelled as a list of characters. -/
abbrev Str := List Char

/-- The apostrophe character (codepoint 39), used inside several literal texts. -/
def apos : Char := Char.ofNat 39

/-- Python whitespace for str.strip and the regex class backslash-s. -/
def isSpaceChar (c : Char) : Bool :=
  c = ' ' || c = '\t' || c = '\n' || c = '\r' || c = Char.ofNat 11 || c = Char.ofNat 12

/-- Python str.strip(): remove leading and trailing whitespace. -/
def pyStrip (s : Str) : Str :=
  ((s.dropWhile isSpaceChar).reverse.dropWhile isSpaceChar).reverse

/-- Test whether the first list is a leading segment of the second. -/
def startsWith : Str → Str → Bool
  | [], _ => true
  | _ :: _, [] => false
  | a :: as, b :: bs => a == b && startsWith as bs

/-- Index of the first occurrence of needle in hay (Python str.find when the
needle is present; none models find returning -1). -/
def findSub (needle : Str) : Str → Option Nat
  | [] => if startsWith needle [] then some 0 else none
  | c :: t => if startsWith needle (c :: t) then some 0 else (findSub needle t).map (· + 1)

/-- Python membership test: needle in hay. -/
def containsSub (hay needle : Str) : Bool := (findSub needle hay).isSome

/-- Python s.split(sep, 1)[1]: the part after the first occurrence of sep.
Every use in the source is guarded so that sep occurs in s; the none branch is
unreachable there. -/
def splitAfterFirst (s sep : Str) : Str :=
  match findSub sep s with
  | some i => List.drop (i + sep.length) s
  | none => s

/-- Python s.split(" ")[0]: the characters before the first space. -/
def firstToken (s : Str) : Str := s.takeWhile (fun c => !(c == ' '))

/-- Python str.lower on one character (ASCII fragment). -/
def pyLowerChar (c : Char) : Char :=
  if 'A' ≤ c ∧ c ≤ 'Z' then Char.ofNat (c.toNat + 32) else c

/-- Python str.lower (ASCII fragment). -/
def pyLower (s : Str) : Str := s.map pyLowerChar

/-- Continuation of a Python integer-literal digit part: digits with single
underscores allowed between digits. -/
def digRest : Str → Bool
  | [] => true
  | '_' :: rest =>
    match rest with
    | [] => false
    | c :: r => c.isDigit && digRest r
  | c :: r => c.isDigit && digRest r

/-- A valid Python int() digit part: nonempty, starts with a digit, single
underscores only between digits. -/
def digitsOk : Str → Bool
  | [] => false
  | c :: r => c.isDigit && digRest r

/-- Numeric value of a digit part (underscores ignored). -/
def digitsVal (s : Str) : Nat :=
  (s.filter (fun c => !(c == '_'))).foldl (fun a c => 10 * a + (c.toNat - 48)) 0

/-- Python int(s) on an ASCII string: strip whitespace, optional sign, digit
part; none models the ValueError raised on malformed input. -/
def pyInt (s : Str) : Option Int :=
  match pyStrip s with
  | '+' :: r => if digitsOk r then some (Int.ofNat (digitsVal r)) else none
  | '-' :: r => if digitsOk r then some (-(Int.ofNat (digitsVal r))) else none
  | r => if digitsOk r then some (Int.ofNat (digitsVal r)) else none

/-- Attempt to match the regex (backslash-d+)(backslash-s*)(seconds?|minutes?)
at the start of s, returning group(0). The quantifiers are greedy and no
backtracking can succeed beyond maximal munch here, because the unit words
start with a letter that is neither a digit nor whitespace. Alternation order
follows the pattern: seconds, second, minutes, minute. -/
def matchTimeAt (s : Str) : Option Str :=
  let ds := s.takeWhile Char.isDigit
  if ds = [] then none
  else
    let r1 := s.dropWhile Char.isDigit
    let ws := r1.takeWhile isSpaceChar
    let r2 := r1.dropWhile isSpaceChar
    if startsWith ("seconds".data) r2 then some (ds ++ ws ++ ("seconds".data))
    else if startsWith ("second".data) r2 then some (ds ++ ws ++ ("second".data))
    else if startsWith ("minutes".data) r2 then some (ds ++ ws ++ ("minutes".data))
    else if startsWith ("minute".data) r2 then some (ds ++ ws ++ ("minute".data))
    else none

/-- re.search for the time pattern: leftmost match wins. -/
def reSearchTime : Str → Option Str
  | [] => none
  | c :: t =>
    match matchTimeAt (c :: t) with
    | some m => some m
    | none => reSearchTime t

/-- A stored reminder: absolute fire time and message text. The source stores
the time as an isoformat string and parses it back with fromisoformat, an
exact round trip, so the time is modelled directly. -/
structure Reminder where
  time : Int
  text : Str
deriving DecidableEq

/-- A news article: webTitle and webUrl of a Guardian result. -/
structure Article where
  title : Str
  url : Str
deriving DecidableEq

/-- Result dict of get_weather_data: only text is always present. -/
structure WeatherResult where
  text : Str
  location : Option Str := none
  temperature : Option Str := none
  humidity : Option Str := none
  pressure : Option Str := none
  description : Option Str := none
deriving DecidableEq

/-- Result dict of get_news_data. -/
structure NewsResult where
  text : Str
  articles : List Article
deriving DecidableEq

/-- The single network interaction of get_news_data: either a transport or
HTTP error (requests.exceptions.RequestException, carrying the message that is
interpolated into the reply), or a JSON body with response.status and
response.results; an absent or null results field is modelled as the empty
list, which the source treats identically (both are falsy). -/
inductive NewsApiResp
  | err (msg : Str)
  | ok (status : Str) (results : List Article)
deriving DecidableEq

/-- Result dict of set_reminder_data: text plus, on success, the created
reminder record (the reminder key is absent on the error paths). -/
structure SetResult where
  text : Str
  reminder : Option Reminder := none
deriving DecidableEq

/-- The response dict returned to the client: text and type plus the
intent-specific optional fields; absent keys are modelled as none. -/
structure Response where
  text : Str
  rtype : Str
  reminder : Option Reminder := none
  articles : Option (List Article) := none
  location : Option Str := none
  temperature : Option Str := none
  humidity : Option Str := none
  pressure : Option Str := none
  description : Option Str := none
deriving DecidableEq

/-- Literal reply of set_reminder_data when int() raises (the except branch). -/
def parseErrText : Str :=
  ("Sorry, I couldn".data) ++ [apos] ++ ("t understand the time. Please specify a number followed by ".data)
    ++ [apos] ++ ("seconds".data) ++ [apos] ++ (" or ".data) ++ [apos] ++ ("minutes".data) ++ [apos] ++ (".".data)

/-- Literal reply of set_reminder_data when the unit is neither seconds nor minutes. -/
def unitErrText : Str :=
  "I can only set reminders in seconds or minutes for now. Please try again.".data

/-- Confirmation text of the seconds branch of set_reminder_data. -/
def okTextSeconds (reminder_text : Str) (n : Int) : Str :=
  ("Okay, I will remind you to ".data) ++ [apos] ++ reminder_text ++ [apos]
    ++ (" in ".data) ++ ((toString n).data) ++ (" seconds.".data)

/-- Confirmation text of the minutes branch of set_reminder_data. -/
def okTextMinutes (reminder_text : Str) (n : Int) : Str :=
  ("Okay, I will remind you to ".data) ++ [apos] ++ reminder_text ++ [apos]
    ++ (" in ".data) ++ ((toString n).data) ++ (" minutes.".data)

/-- Error reply of process_command when a time was found but the message is empty. -/
def noMsgErrText : Str :=
  ("I found a time, but couldn".data) ++ [apos]
    ++ ("t find a reminder message. Please use a phrase like ".data) ++ [apos]
    ++ ("remind me in 5 minutes to call mom.".data) ++ [apos]

/-- Error reply of process_command when the time regex does not match. -/
def usageErrText : Str :=
  ("To set a reminder, please use a phrase like, ".data) ++ [apos]
    ++ ("set a reminder to take out the trash in 5 minutes".data) ++ [apos] ++ (".".data)

/-- Default reply of process_command for an unclassified command. -/
def unknownText : Str :=
  ("I".data) ++ [apos] ++ ("m sorry, I don".data) ++ [apos]
    ++ ("t understand that command yet. Please try again.".data)

/-- Reply of get_news_data when the status is not ok or the result list is falsy. -/
def fetchFailText : Str :=
  ("I couldn".data) ++ [apos] ++ ("t fetch any news headlines at the moment.".data)

/-- Reply of the unreachable zero-results branch inside get_news_data. -/
def noResultsText : Str :=
  ("I couldn".data) ++ [apos] ++ ("t find any news headlines for that topic from yesterday.".data)

/-- Reply of get_news_data on a transport or HTTP error. -/
def newsNetErrText (e : Str) : Str :=
  ("Sorry, I had trouble getting the news. The error was: ".data) ++ e

/-- Reply of get_news_data when the Guardian API key is not configured. -/
def guardianKeyText : Str := "Please set your Guardian API key.".data

/-- Intro sentence of get_news_data when a truthy query is present (identical
for tag and non-tag queries; the tag only changes the request URL). -/
def introAbout (q : Str) : Str :=
  ("Getting the latest news about ".data) ++ q ++ (" from yesterday from The Guardian.".data)

/-- Intro sentence of get_news_data without a query. -/
def introTop : Str := "Here are the top headlines from yesterday from The Guardian:".data

/-- Spoken enumeration of the headlines, joined by a period and a space. -/
def headlinesText (l : List Article) : Str :=
  List.intercalate (". ".data)
    (l.enum.map (fun p => ("Headline number ".data) ++ ((toString (p.1 + 1)).data) ++ (": ".data) ++ p.2.title))

/-- Embedding of get_news_data (src/assistant.py lines 114-159). hasKey models
the presence of GUARDIAN_API_KEY, net the single HTTP interaction. The date
window, ordering, page size and tag filter only shape the request URL, which is
abstracted into net. -/
def getNewsData (hasKey : Bool) (net : NewsApiResp) (query : Option Str) : NewsResult :=
  if !hasKey then { text := guardianKeyText, articles := [] }
  else
    let intro := match query with
      | some q => if q = ([] : Str) then introTop else introAbout q
      | none => introTop
    match net with
    | NewsApiResp.err e => { text := newsNetErrText e, articles := [] }
    | NewsApiResp.ok status results =>
      if status = ("ok".data) ∧ results ≠ [] then
        if results = [] then { text := noResultsText, articles := [] }
        else
          { text := intro ++ (" ".data) ++ headlinesText results
              ++ (". Would you like me to provide the URLs to see the full articles?".data),
            articles := results }
      else { text := fetchFailText, articles := [] }

/-- Embedding of set_reminder_data (src/assistant.py lines 161-183). The store
is passed and returned explicitly in place of the global reminders list; now is
the current timestamp in seconds. int() failure is the none branch of pyInt,
which the except clause turns into the parse-error reply. -/
def setReminderData (reminder_text : Str) (time_str : Str) (now : Int) (store : List Reminder) :
    SetResult × List Reminder :=
  if containsSub time_str ("seconds".data) then
    match pyInt (firstToken time_str) with
    | some n =>
      let rd : Reminder := { time := now + n, text := reminder_text }
      ({ text := okTextSeconds reminder_text n, reminder := some rd }, store ++ [rd])
    | none => ({ text := parseErrText }, store)
  else if containsSub time_str ("minutes".data) then
    match pyInt (firstToken time_str) with
    | some n =>
      let rd : Reminder := { time := now + 60 * n, text := reminder_text }
      ({ text := okTextMinutes reminder_text n, reminder := some rd }, store ++ [rd])
    | none => ({ text := parseErrText }, store)
  else ({ text := unitErrText }, store)

/-- Zero-padded two-digit number for the clock format. -/
def pad2 (n : Nat) : Str :=
  if n < 10 then ("0".data) ++ ((toString n).data) else (toString n).data

/-- Model of strftime applied to the current time (format %I:%M %p), reading
now as epoch seconds; no claim depends on the rendered clock text. -/
def fmtClock (now : Int) : Str :=
  let t : Nat := (now.emod 86400).toNat
  let h : Nat := t / 3600
  let m : Nat := (t % 3600) / 60
  let h12 : Nat := if h % 12 = 0 then 12 else h % 12
  pad2 h12 ++ (":".data) ++ pad2 m ++ (if h < 12 then (" AM".data) else (" PM".data))

/-- Keyword test of the time branch (line 200). -/
def timeKw (c : Str) : Bool :=
  containsSub c ("time".data) || containsSub c ("hour".data) || containsSub c ("clock".data)
    || containsSub c (("o".data) ++ [apos] ++ ("clock".data))

/-- Keyword test of the weather branch (line 204). -/
def weatherKw (c : Str) : Bool :=
  containsSub c ("weather".data) || containsSub c ("climate".data) || containsSub c ("forecast".data)
    || containsSub c ("meteorology".data) || containsSub c ("temperature".data)
    || containsSub c ("cloud cover".data) || containsSub c ("windspeed".data)
    || containsSub c ("humidity".data) || containsSub c ("pressure".data)

/-- Keyword test of the reminder branch (line 228). -/
def reminderKw (c : Str) : Bool :=
  containsSub c ("reminder".data) || containsSub c ("remind me".data) || containsSub c ("set reminder".data)

/-- Keyword test of the confirmation branch (line 250). -/
def confirmKw (c : Str) : Bool :=
  containsSub c ("yes".data) || containsSub c ("would like".data)
    || containsSub c (("i".data) ++ [apos] ++ ("d like that".data))
    || containsSub c ("affirmative".data) || containsSub c ("confirmative".data)
    || containsSub c ("yep".data) || containsSub c ("yeah".data) || containsSub c ("please do".data)
    || containsSub c ("sure".data) || containsSub c ("positive".data) || containsSub c ("do it".data)

/-- Keyword test of the goodbye branch (line 253). -/
def goodbyeKw (c : Str) : Bool :=
  containsSub c ("exit".data) || containsSub c ("goodbye".data) || containsSub c ("bye".data)
    || containsSub c ("see you later".data) || containsSub c ("tata".data) || containsSub c ("see ya".data)
    || containsSub c ("shareenna".data) || containsSub c ("alvida".data) || containsSub c ("adios".data)
    || containsSub c ("ciao".data) || containsSub c ("au revoir".data) || containsSub c ("sayonara".data)
    || containsSub c ("pootte".data)

/-- Location extraction of the weather branch (lines 205-209): text after the
first occurrence of the keyword, stripped; the keyword is weather-in when that
phrase occurs, otherwise weather-at. find is nonnegative here because the
keyword is present whenever this path runs. -/
def weatherLocation (c : Str) : Option Str :=
  if containsSub c ("weather in".data) || containsSub c ("weather at".data) then
    let kw := if containsSub c ("weather in".data) then ("weather in".data) else ("weather at".data)
    some (pyStrip (List.drop ((findSub kw c).getD 0 + kw.length) c))
  else none

/-- Topic extraction of the news branch (lines 215-223): the first trigger word
surrounded by spaces wins, and the command is split on the bare word, so an
earlier embedded occurrence of the word is where the split happens. -/
def newsQuery (c : Str) : Option Str :=
  if containsSub c (" on ".data) then some (pyStrip (splitAfterFirst c ("on".data)))
  else if containsSub c (" about ".data) then some (pyStrip (splitAfterFirst c ("about".data)))
  else if containsSub c (" relating to ".data) then some (pyStrip (splitAfterFirst c ("relating to".data)))
  else if containsSub c (" for ".data) then some (pyStrip (splitAfterFirst c ("for".data)))
  else none

/-- Message extraction of the reminder branch (lines 233-240): split the
command after the first occurrence of the matched time string, strip, and if
the stripped remainder contains a space-to-space, take the stripped text after
its first occurrence, else the whole remainder. -/
def reminderMsg (c : Str) (time_str : Str) : Str :=
  let part := pyStrip (splitAfterFirst c time_str)
  if containsSub part (" to ".data) then pyStrip (splitAfterFirst part (" to ".data)) else part

/-- Response shaping of the weather branch (line 212): type weather merged
with the fields of the lookup result. -/
def weatherResponse (wr : WeatherResult) : Response :=
  { text := wr.text, rtype := ("weather".data), location := wr.location,
    temperature := wr.temperature, humidity := wr.humidity, pressure := wr.pressure,
    description := wr.description }

/-- Response shaping of the news branch (line 226). -/
def newsResponse (nr : NewsResult) : Response :=
  { text := nr.text, rtype := ("news".data), articles := some nr.articles }

/-- Alert response produced for a due reminder (line 262). -/
def alertOf (r : Reminder) : Response :=
  { text := ("Reminder: ".data) ++ r.text, rtype := ("reminder_alert".data) }

/-- Branch selection of process_command (src/assistant.py lines 193-254): the
command is lowercased, then the first matching intent branch computes the
response; the reminder branch may extend the store. gW abstracts
get_weather_data, hasNewsKey and net feed the embedded get_news_data. -/
def dispatch (gW : Option Str → WeatherResult) (hasNewsKey : Bool) (net : NewsApiResp)
    (now : Int) (command0 : Str) (store : List Reminder) : Response × List Reminder :=
  let command := pyLower command0
  if timeKw command then
    ({ text := ("The current time is ".data) ++ fmtClock now, rtype := ("time".data) }, store)
  else if weatherKw command then
    (weatherResponse (gW (weatherLocation command)), store)
  else if containsSub command ("news".data) then
    (newsResponse (getNewsData hasNewsKey net (newsQuery command)), store)
  else if reminderKw command then
    match reSearchTime command with
    | some time_str =>
      let msg := reminderMsg command time_str
      if msg ≠ [] then
        let res := setReminderData msg time_str now store
        ({ text := res.1.text, rtype := ("reminder_set".data), reminder := res.1.reminder }, res.2)
      else ({ text := noMsgErrText, rtype := ("error".data) }, store)
    | none => ({ text := usageErrText, rtype := ("error".data) }, store)
  else if confirmKw command then
    ({ text := ("Okay, displaying the links now.".data), rtype := ("news_confirmation".data) }, store)
  else if goodbyeKw command then
    ({ text := ("Goodbye! Have a great day.".data), rtype := ("goodbye".data) }, store)
  else ({ text := unknownText, rtype := ("error".data) }, store)

/-- One iteration of the due-check loop (lines 260-263): a due reminder
overwrites the response with its alert and is appended to the removal list. -/
def dueStep (now : Int) (acc : Response × List Reminder) (r : Reminder) : Response × List Reminder :=
  if r.time ≤ now then (alertOf r, acc.2 ++ [r]) else acc

/-- The due-check loop over the whole store (lines 259-263), yielding the
final response and the reminders_to_remove list. -/
def sweepScan (now : Int) (resp0 : Response) (store : List Reminder) : Response × List Reminder :=
  store.foldl (dueStep now) (resp0, [])

/-- The removal loop (lines 265-266): list.remove drops the first equal
element for each entry of the removal list. -/
def removeAll (store : List Reminder) (l : List Reminder) : List Reminder :=
  l.foldl List.erase store

/-- The due-sweep of process_command (lines 258-266): scan, then remove. -/
def sweepRun (now : Int) (resp0 : Response) (store : List Reminder) : Response × List Reminder :=
  let p := sweepScan now resp0 store
  (p.1, removeAll store p.2)

/-- The last due reminder examined by a scan, matching the overwrite order of
the loop. -/
def lastDue (now : Int) (store : List Reminder) : Option Reminder :=
  store.foldl (fun a r => if r.time ≤ now then some r else a) none

/-- Whole request handling of process_command: branch selection followed by
the due-sweep over the possibly extended store. -/
def processCommand (gW : Option Str → WeatherResult) (hasNewsKey : Bool) (net : NewsApiResp)
    (now : Int) (command0 : Str) (store : List Reminder) : Response × List Reminder :=
  let d := dispatch gW hasNewsKey net now command0 store
  sweepRun now d.1 d.2

/-- Folding the due-check with any initial accumulator agrees with the fold
from none except when no reminder is due, where the initial value survives. -/
lemma lastDue_foldl_init (now : Int) (store : List Reminder) (a : Option Reminder) :
    List.foldl (fun a r => if r.time ≤ now then some r else a) a store
      = (List.foldl (fun a r => if r.time ≤ now then some r else a) none store).elim a some := by
  induction store generalizing a with
  | nil => simp
  | cons x t ih =>
    simp only [List.foldl_cons]
    by_cases h : x.time ≤ now
    · simp only [h, if_true]
      rw [ih (some x)]
      cases List.foldl (fun a r => if r.time ≤ now then some r else a) none t <;> simp
    · simp only [h, if_false]
      exact ih a

/-- The response computed by the due-check loop is the alert of the last due
reminder examined, or the initial response when none is due. -/
lemma sweepScan_foldl_fst (now : Int) (store : List Reminder) :
    ∀ (resp : Response) (acc : List Reminder),
      (List.foldl (dueStep now) (resp, acc) store).1 = (lastDue now store).elim resp alertOf := by
  induction store with
  | nil => intro resp acc; simp [lastDue]
  | cons x t ih =>
    intro resp acc
    simp only [List.foldl_cons, dueStep, lastDue]
    by_cases h : x.time ≤ now
    · simp only [h, if_true]
      rw [ih (alertOf x) (acc ++ [x]), lastDue]
      rw [lastDue_foldl_init now t (some x)]
      cases List.foldl (fun a r => if r.time ≤ now then some r else a) none t <;> simp
    · simp only [h, if_false]
      exact ih resp acc

/-- The removal list built by the due-check loop is exactly the due members,
in store order. -/
lemma sweepScan_foldl_snd (now : Int) (store : List Reminder) :
    ∀ (resp : Response) (acc : List Reminder),
      (List.foldl (dueStep now) (resp, acc) store).2
        = acc ++ store.filter (fun r => decide (r.time ≤ now)) := by
  induction store with
  | nil => intro resp acc; simp
  | cons x t ih =>
    intro resp acc
    simp only [List.foldl_cons, dueStep, List.filter_cons]
    by_cases h : x.time ≤ now
    · simp only [h, if_true, decide_True]
      rw [ih (alertOf x) (acc ++ [x])]
      simp
    · simp only [h, if_false, decide_False]
      exact ih resp acc

/-- Erasing elements that are all different from the head leaves the head. -/
lemma removeAll_cons_of_ne (x : Reminder) (t l : List Reminder) (h : ∀ y ∈ l, y ≠ x) :
    removeAll (x :: t) l = x :: removeAll t l := by
  induction l generalizing t with
  | nil => rfl
  | cons y l ih =>
    simp only [removeAll, List.foldl_cons]
    have hxy : (x == y) = false := by
      have : x ≠ y := fun he => (h y (by simp)) he.symm
      simpa using this
    rw [List.erase_cons, hxy]
    simp only [Bool.false_eq_true, if_false]
    exact ih (t.erase y) (fun z hz => h z (by simp [hz]))

/-- Removing, one by one, the members satisfying p from a list leaves exactly
the members refuting p (first-occurrence removal agrees with filtering because
equal reminders agree on p). -/
lemma removeAll_filter (p : Reminder → Bool) (store : List Reminder) :
    removeAll store (store.filter p) = store.filter (fun x => !(p x)) := by
  induction store with
  | nil => rfl
  | cons x t ih =>
    by_cases h : p x = true
    · simp only [List.filter_cons, h, if_true, Bool.not_true, if_false]
      simp only [removeAll, List.foldl_cons]
      rw [List.erase_cons_head]
      exact ih
    · have hf : p x = false := by simpa using h
      simp only [List.filter_cons, hf, Bool.not_false, if_true, Bool.false_eq_true, if_false]
      rw [removeAll_cons_of_ne x t (t.filter p)
        (fun y hy => fun he => by
          have : p y = true := (List.mem_filter.mp hy).2
          rw [he, hf] at this
          exact Bool.false_ne_true this)]
      rw [ih]

/-- The store after a sweep keeps exactly the reminders that were not due. -/
lemma sweepRun_snd (now : Int) (resp : Response) (store : List Reminder) :
    (sweepRun now resp store).2 = store.filter (fun x => !(decide (x.time ≤ now))) := by
  simp only [sweepRun, sweepScan]
  rw [sweepScan_foldl_snd now store resp []]
  simp only [List.nil_append]
  exact removeAll_filter _ store

/-- The response after a sweep is the alert of the last due reminder, or the
incoming response when none is due. -/
lemma sweepRun_fst (now : Int) (resp : Response) (store : List Reminder) :
    (sweepRun now resp store).1 = (lastDue now store).elim resp alertOf := by
  simp only [sweepRun, sweepScan]
  exact sweepScan_foldl_fst now store resp []

/-- A due member forces the scan to record some last due reminder. -/
lemma lastDue_isSome_of_mem (now : Int) (store : List Reminder) (x : Reminder)
    (hx : x ∈ store) (hd : x.time ≤ now) : ∃ r, lastDue now store = some r := by
  induction store with
  | nil => cases hx
  | cons y t ih =>
    simp only [lastDue, List.foldl_cons]
    rw [lastDue_foldl_init]
    rcases List.mem_cons.mp hx with he | hm
    · cases hlt : List.foldl (fun a r => if r.time ≤ now then some r else a) none t with
      | none => exact ⟨y, by simp [hlt, ← he, hd]⟩
      | some r => exact ⟨r, by simp [hlt]⟩
    · obtain ⟨r, hr⟩ := ih hm
      exact ⟨r, by simp [lastDue] at hr; simp [hr]⟩

/-- When nothing is due the scan records no reminder. -/
lemma lastDue_none_of (now : Int) (store : List Reminder)
    (h : ∀ x ∈ store, ¬ x.time ≤ now) : lastDue now store = none := by
  induction store with
  | nil => rfl
  | cons y t ih =>
    simp only [lastDue, List.foldl_cons, h y (by simp), if_false]
    exact ih (fun x hx => h x (by simp [hx]))

/-- C2: after the branch runs, the due-sweep always runs on the resulting
store; whenever at least one stored reminder is due, the returned response is
the alert of the last due reminder examined, replacing the branch response,
and every due reminder (and only those) is removed from the store, so a single
alert is surfaced even when several reminders fire. -/
theorem claim2_sweep_override (gW : Option Str → WeatherResult) (hk : Bool) (net : NewsApiResp)
    (now : Int) (cmd : Str) (store : List Reminder)
    (h : ∃ x ∈ (dispatch gW hk net now cmd store).2, x.time ≤ now) :
    ∃ r, lastDue now (dispatch gW hk net now cmd store).2 = some r ∧
      processCommand gW hk net now cmd store
        = (alertOf r,
           ((dispatch gW hk net now cmd store).2).filter (fun x => !(decide (x.time ≤ now)))) := by
  obtain ⟨x, hx, hd⟩ := h
  obtain ⟨r, hr⟩ := lastDue_isSome_of_mem now _ x hx hd
  refine ⟨r, hr, ?_⟩
  simp only [processCommand]
  refine Prod.ext_iff.mpr ⟨?_, ?_⟩
  · rw [sweepRun_fst, hr]; rfl
  · exact sweepRun_snd now _ _

/-- Witness for C2 at a concrete command and store with two due reminders:
the later one wins and both are removed. -/
theorem claim2_sweep_override_witness :
    ∃ r, lastDue 5 (dispatch (fun _ => { text := [] }) false (NewsApiResp.err []) 5
          ("hello hello".data) [{ time := -1, text := ("a".data) }, { time := 0, text := ("b".data) }]).2 = some r ∧
      processCommand (fun _ => { text := [] }) false (NewsApiResp.err []) 5
          ("hello hello".data) [{ time := -1, text := ("a".data) }, { time := 0, text := ("b".data) }]
        = (alertOf r,
           ((dispatch (fun _ => { text := [] }) false (NewsApiResp.err []) 5
              ("hello hello".data)
              [{ time := -1, text := ("a".data) }, { time := 0, text := ("b".data) }]).2).filter
             (fun x => !(decide (x.time ≤ 5)))) :=
  claim2_sweep_override (fun _ => { text := [] }) false (NewsApiResp.err []) 5
    ("hello hello".data) [{ time := -1, text := ("a".data) }, { time := 0, text := ("b".data) }]
    ⟨{ time := 0, text := ("b".data) }, by decide, by decide⟩

/-- C3: a reminder due at the moment of a sweep is removed from the store by
that single sweep call, and no later sweep over the resulting store can fire
it again (the removal list of any subsequent scan excludes it). -/
theorem claim3_fires_at_most_once (now : Int) (store : List Reminder) (resp : Response)
    (r : Reminder) (h1 : r ∈ store) (h2 : r.time ≤ now) :
    r ∉ (sweepRun now resp store).2 ∧
      ∀ (now2 : Int) (resp2 : Response),
        r ∉ (sweepScan now2 resp2 ((sweepRun now resp store).2)).2 := by
  have hs := sweepRun_snd now resp store
  have hnot : r ∉ (sweepRun now resp store).2 := by
    rw [hs]
    intro hmem
    have := (List.mem_filter.mp hmem).2
    simp [h2] at this
  refine ⟨hnot, ?_⟩
  intro now2 resp2 hmem
  simp only [sweepScan] at hmem
  rw [sweepScan_foldl_snd now2 _ resp2 []] at hmem
  simp only [List.nil_append] at hmem
  exact hnot (List.mem_filter.mp hmem).1

/-- Witness for C3 at a concrete store: the due reminder is gone after the
sweep and a later sweep cannot list it for removal. -/
theorem claim3_fires_at_most_once_witness :
    { time := (0 : Int), text := ("a".data) }
        ∉ (sweepRun 0 { text := ("x".data), rtype := ("error".data) }
            [{ time := 0, text := ("a".data) }, { time := 9, text := ("b".data) }]).2 ∧
      { time := (0 : Int), text := ("a".data) }
        ∉ (sweepScan 99 { text := ("y".data), rtype := ("error".data) }
            ((sweepRun 0 { text := ("x".data), rtype := ("error".data) }
              [{ time := 0, text := ("a".data) }, { time := 9, text := ("b".data) }]).2)).2 :=
  ⟨(claim3_fires_at_most_once 0 [{ time := 0, text := ("a".data) }, { time := 9, text := ("b".data) }]
      { text := ("x".data), rtype := ("error".data) } { time := 0, text := ("a".data) }
      (by decide) (by decide)).1,
   (claim3_fires_at_most_once 0 [{ time := 0, text := ("a".data) }, { time := 9, text := ("b".data) }]
      { text := ("x".data), rtype := ("error".data) } { time := 0, text := ("a".data) }
      (by decide) (by decide)).2 99 { text := ("y".data), rtype := ("error".data) }⟩

/-- C8: sweeping a store in which no reminder is due returns the branch
response unchanged and leaves the store unchanged, so the cardinality is
preserved. -/
theorem claim8_no_due_sweep_is_identity (now : Int) (store : List Reminder) (resp : Response)
    (h : ∀ x ∈ store, ¬ x.time ≤ now) :
    sweepRun now resp store = (resp, store) ∧
      (sweepRun now resp store).2.length = store.length := by
  have hmain : sweepRun now resp store = (resp, store) := by
    refine Prod.ext_iff.mpr ⟨?_, ?_⟩
    · rw [sweepRun_fst, lastDue_none_of now store h]; rfl
    · rw [sweepRun_snd]
      refine List.filter_eq_self.mpr ?_
      intro a ha
      simp [h a ha]
  exact ⟨hmain, by rw [hmain]⟩

/-- Witness for C8 at a concrete future-only store. -/
theorem claim8_no_due_sweep_is_identity_witness :
    sweepRun 0 { text := ("x".data), rtype := ("error".data) }
        [{ time := 5, text := ("a".data) }, { time := 7, text := ("b".data) }]
      = ({ text := ("x".data), rtype := ("error".data) },
         [{ time := 5, text := ("a".data) }, { time := 7, text := ("b".data) }]) ∧
      (sweepRun 0 { text := ("x".data), rtype := ("error".data) }
        [{ time := 5, text := ("a".data) }, { time := 7, text := ("b".data) }]).2.length = 2 :=
  claim8_no_due_sweep_is_identity 0
    [{ time := 5, text := ("a".data) }, { time := 7, text := ("b".data) }]
    { text := ("x".data), rtype := ("error".data) } (by decide)

/-- C7: for every time_spec handed to the reminder-set handler, a spec
containing seconds parses the leading token as a seconds offset, a spec
containing minutes (and not seconds) parses it as a minutes offset, any other
unit yields the only-seconds-or-minutes error; a leading token that int()
rejects yields the could-not-understand-the-time error; and the handler is a
total function, always returning one of the three documented result shapes, so
no exception reaches the caller. -/
theorem claim7_time_spec_parsing (rt ts : Str) (now : Int) (store : List Reminder) :
    (containsSub ts ("seconds".data) = true →
      (∀ n, pyInt (firstToken ts) = some n →
        setReminderData rt ts now store
          = ({ text := okTextSeconds rt n, reminder := some { time := now + n, text := rt } },
             store ++ [{ time := now + n, text := rt }])) ∧
      (pyInt (firstToken ts) = none →
        setReminderData rt ts now store = ({ text := parseErrText }, store)))
    ∧ (containsSub ts ("seconds".data) = false → containsSub ts ("minutes".data) = true →
      (∀ n, pyInt (firstToken ts) = some n →
        setReminderData rt ts now store
          = ({ text := okTextMinutes rt n, reminder := some { time := now + 60 * n, text := rt } },
             store ++ [{ time := now + 60 * n, text := rt }])) ∧
      (pyInt (firstToken ts) = none →
        setReminderData rt ts now store = ({ text := parseErrText }, store)))
    ∧ (containsSub ts ("seconds".data) = false → containsSub ts ("minutes".data) = false →
      setReminderData rt ts now store = ({ text := unitErrText }, store))
    ∧ ((setReminderData rt ts now store).1.reminder.isSome = true
        ∨ (setReminderData rt ts now store).1.text = parseErrText
        ∨ (setReminderData rt ts now store).1.text = unitErrText) := by
  refine ⟨?_, ?_, ?_, ?_⟩
  · intro hs
    exact ⟨fun n hn => by simp [setReminderData, hs, hn],
           fun hn => by simp [setReminderData, hs, hn]⟩
  · intro hs hm
    exact ⟨fun n hn => by simp [setReminderData, hs, hm, hn],
           fun hn => by simp [setReminderData, hs, hm, hn]⟩
  · intro hs hm
    simp [setReminderData, hs, hm]
  · cases hs : containsSub ts ("seconds".data) with
    | true =>
      cases hn : pyInt (firstToken ts) with
      | some n => left; simp [setReminderData, hs, hn]
      | none => right; left; simp [setReminderData, hs, hn]
    | false =>
      cases hm : containsSub ts ("minutes".data) with
      | true =>
        cases hn : pyInt (firstToken ts) with
        | some n => left; simp [setReminderData, hs, hm, hn]
        | none => right; left; simp [setReminderData, hs, hm, hn]
      | false => right; right; simp [setReminderData, hs, hm]

/-- Witness for C7 across its four cases: a seconds spec, a minutes spec, an
unsupported unit, and a non-numeric leading token. -/
theorem claim7_time_spec_parsing_witness :
    setReminderData ("call mom".data) ("7 seconds".data) 100 []
        = ({ text := okTextSeconds ("call mom".data) 7,
             reminder := some { time := 107, text := ("call mom".data) } },
           [{ time := 107, text := ("call mom".data) }])
    ∧ setReminderData ("call mom".data) ("2 minutes".data) 100 []
        = ({ text := okTextMinutes ("call mom".data) 2,
             reminder := some { time := 220, text := ("call mom".data) } },
           [{ time := 220, text := ("call mom".data) }])
    ∧ setReminderData ("call mom".data) ("2 hours".data) 100 [] = ({ text := unitErrText }, [])
    ∧ setReminderData ("call mom".data) ("x seconds".data) 100 [] = ({ text := parseErrText }, []) :=
  ⟨((claim7_time_spec_parsing ("call mom".data) ("7 seconds".data) 100 []).1 (by decide)).1
      7 (by decide),
   (((claim7_time_spec_parsing ("call mom".data) ("2 minutes".data) 100 []).2.1 (by decide)
      (by decide)).1 2 (by decide)),
   ((claim7_time_spec_parsing ("call mom".data) ("2 hours".data) 100 []).2.2.1 (by decide)
      (by decide)),
   (((claim7_time_spec_parsing ("call mom".data) ("x seconds".data) 100 []).1 (by decide)).2
      (by decide))⟩

/-- C10: the reminder-set handler either returns a confirmation carrying the
created record and appends exactly that record to the store, or returns a
result without a record and leaves the store unchanged; so a reminder is
appended if and only if a confirmation with the record is returned. -/
theorem claim10_store_change_iff_confirmation (rt ts : Str) (now : Int) (store : List Reminder) :
    (∃ r, (setReminderData rt ts now store).1.reminder = some r
        ∧ (setReminderData rt ts now store).2 = store ++ [r])
    ∨ ((setReminderData rt ts now store).1.reminder = none
        ∧ (setReminderData rt ts now store).2 = store) := by
  cases hs : containsSub ts ("seconds".data) with
  | true =>
    cases hn : pyInt (firstToken ts) with
    | some n =>
      left
      exact ⟨{ time := now + n, text := rt },
        by simp [setReminderData, hs, hn], by simp [setReminderData, hs, hn]⟩
    | none => right; constructor <;> simp [setReminderData, hs, hn]
  | false =>
    cases hm : containsSub ts ("minutes".data) with
    | true =>
      cases hn : pyInt (firstToken ts) with
      | some n =>
        left
        exact ⟨{ time := now + 60 * n, text := rt },
          by simp [setReminderData, hs, hm, hn], by simp [setReminderData, hs, hm, hn]⟩
      | none => right; constructor <;> simp [setReminderData, hs, hm, hn]
    | false => right; constructor <;> simp [setReminderData, hs, hm]

/-- C9: when the reminder branch runs and the handler returns the
parse-failure result (no reminder created), the dispatcher still labels the
response with type reminder_set, not type error, because the type tag is
attached before the handler result is merged in. -/
theorem claim9_parse_failure_still_reminder_set (gW : Option Str → WeatherResult) (hk : Bool)
    (net : NewsApiResp) (now : Int) (cmd : Str) (store : List Reminder) (ts : Str)
    (h1 : timeKw (pyLower cmd) = false) (h2 : weatherKw (pyLower cmd) = false)
    (h3 : containsSub (pyLower cmd) ("news".data) = false)
    (h4 : reminderKw (pyLower cmd) = true)
    (h5 : reSearchTime (pyLower cmd) = some ts)
    (h6 : reminderMsg (pyLower cmd) ts ≠ [])
    (h7 : (setReminderData (reminderMsg (pyLower cmd) ts) ts now store).1.text = parseErrText) :
    (dispatch gW hk net now cmd store).1.rtype = ("reminder_set".data) := by
  simp [dispatch, h1, h2, h3, h4, h5, h6]

/-- Witness for C9: the command has a time the regex accepts (5minutes) but
int() rejects (no space before the unit), and the reply is still labelled
reminder_set. -/
theorem claim9_parse_failure_still_reminder_set_witness :
    (dispatch (fun _ => { text := [] }) false (NewsApiResp.err []) 0
        ("remind me 5minutes call mom".data) []).1.rtype = ("reminder_set".data) :=
  claim9_parse_failure_still_reminder_set (fun _ => { text := [] }) false (NewsApiResp.err []) 0
    ("remind me 5minutes call mom".data) [] ("5minutes".data)
    (by decide) (by decide) (by decide) (by decide) (by decide) (by decide) (by decide)

/-- Counterexample to C4 as stated: the command Set reminder 5 minutes Call
MOM yields a stored message call mom in lower case, not the original casing
Call MOM, because process_command lowercases the command before the regex and
the message extraction. -/
theorem claim4_counterexample :
    (dispatch (fun _ => { text := [] }) false (NewsApiResp.err []) 0
        ("Set reminder 5 minutes Call MOM".data) []).2
      = [{ time := 300, text := ("call mom".data) }]
    ∧ ("call mom".data) ≠ ("Call MOM".data) := by decide

/-- C4 amended: the dispatcher inspects only the lowercased copy of the
command, for the regex as for the extracted message, so two commands with
equal lowercasings are processed identically and original casing is not
preserved. -/
theorem claim4_amended_lowercase_only (gW : Option Str → WeatherResult) (hk : Bool)
    (net : NewsApiResp) (now : Int) (cmd cmd2 : Str) (store : List Reminder)
    (h : pyLower cmd = pyLower cmd2) :
    dispatch gW hk net now cmd store = dispatch gW hk net now cmd2 store := by
  unfold dispatch
  rw [h]

/-- Witness for the amended C4: a mixed-case and a lower-case spelling of the
same reminder command dispatch identically. -/
theorem claim4_amended_lowercase_only_witness :
    dispatch (fun _ => { text := [] }) false (NewsApiResp.err []) 0
        ("Remind ME in 5 minutes to CALL Mom".data) []
      = dispatch (fun _ => { text := [] }) false (NewsApiResp.err []) 0
        ("remind me in 5 minutes to call mom".data) [] :=
  claim4_amended_lowercase_only (fun _ => { text := [] }) false (NewsApiResp.err []) 0
    ("Remind ME in 5 minutes to CALL Mom".data) ("remind me in 5 minutes to call mom".data) []
    (by decide)

/-- C1, evaluated at the claimed command: the handler is invoked with message
to call mom rather than call mom, because the remainder is stripped before the
space-to-space check, so the check fails and the leading to survives; the
fire-at part of the claim holds (now plus 300 seconds for 5 minutes). -/
theorem claim1_divergence :
    (dispatch (fun _ => { text := [] }) false (NewsApiResp.err []) 0
        ("remind me in 5 minutes to call mom".data) []).2
      = [{ time := 300, text := ("to call mom".data) }]
    ∧ (dispatch (fun _ => { text := [] }) false (NewsApiResp.err []) 0
        ("remind me in 5 minutes to call mom".data) []).1.text
      = okTextMinutes ("to call mom".data) 5
    ∧ ("to call mom".data) ≠ ("call mom".data) := by decide

/-- C5, evaluated at the claimed scenario: with the news API returning status
ok and zero results, the zero-results branch of get_news_data is unreachable
(the guard already requires a truthy result list), so the reply text is the
could-not-fetch message, not the claimed could-not-find-for-that-topic
message; type news and empty articles do hold. -/
theorem claim5_divergence :
    processCommand (fun _ => { text := [] }) true (NewsApiResp.ok ("ok".data) []) 0
        ("tell me the news about technology".data) []
      = ({ text := fetchFailText, rtype := ("news".data), articles := some [] }, [])
    ∧ fetchFailText ≠ noResultsText := by decide

/-- Every list is a leading segment of itself followed by anything. -/
lemma startsWith_self_append (a b : Str) : startsWith a (a ++ b) = true := by
  induction a with
  | nil => rfl
  | cons c t ih => simp [startsWith, ih]

/-- Dropping the length of a leading segment uncovers the rest. -/
lemma dropLenAppend (p r : Str) : (p ++ r).drop p.length = r := by
  induction p with
  | nil => rfl
  | cons a p ih => simpa using ih

/-- A match at some offset makes the containment test true. -/
lemma containsSub_of_startsWith_drop (hay needle : Str) (j : Nat)
    (h : startsWith needle (hay.drop j) = true) : containsSub hay needle = true := by
  induction hay generalizing j with
  | nil =>
    simp only [List.drop_nil] at h
    simp [containsSub, findSub, h]
  | cons c t ih =>
    cases j with
    | zero =>
      simp only [List.drop_zero] at h
      simp [containsSub, findSub, h]
    | succ j =>
      have hrec : containsSub t needle = true := ih j (by simpa using h)
      simp only [containsSub, findSub] at hrec ⊢
      by_cases hs : startsWith needle (c :: t) = true
      · simp [hs]
      · simp only [hs, Bool.false_eq_true, if_false]
        simpa using hrec

/-- If the needle occurs right after a leading segment and at no position
inside that segment, find returns exactly the length of the segment. -/
lemma findSub_of_no_early (needle p r : Str) (hr : startsWith needle r = true)
    (hp : ∀ j, j < p.length → startsWith needle ((p ++ r).drop j) = false) :
    findSub needle (p ++ r) = some p.length := by
  induction p with
  | nil =>
    cases r with
    | nil => simp [findSub, hr]
    | cons c t => simp [findSub, hr]
  | cons a p ih =>
    have h0 : startsWith needle (a :: (p ++ r)) = false := by
      have := hp 0 (by simp)
      simpa using this
    simp only [List.cons_append, findSub, List.append_eq, h0, Bool.false_eq_true, if_false]
    rw [ih (fun j hj => by
      have := hp (j + 1) (by simpa using Nat.succ_lt_succ hj)
      simpa using this)]
    simp

/-- C6 amended: when the weather branch handles a command whose lowercased
form is p followed by the phrase kw followed by x, the first such occurrence,
where kw is weather-in, or weather-at on a command in which weather-in does
not occur (the code prefers weather-in when both are present), the location
handed to the weather lookup is x stripped of surrounding whitespace; x is
drawn from the lowercased command, so the location is the lowercasing of the
original text after the phrase, not its original casing. -/
theorem claim6_amended_location (gW : Option Str → WeatherResult) (hk : Bool) (net : NewsApiResp)
    (now : Int) (cmd : Str) (store : List Reminder) (p x kw : Str)
    (hkw : kw = ("weather in".data)
      ∨ (kw = ("weather at".data) ∧ containsSub (pyLower cmd) ("weather in".data) = false))
    (hc : pyLower cmd = p ++ kw ++ x)
    (hfirst : ∀ j, j < p.length → startsWith kw ((pyLower cmd).drop j) = false)
    (ht : timeKw (pyLower cmd) = false) :
    dispatch gW hk net now cmd store = (weatherResponse (gW (some (pyStrip x))), store) := by
  rcases hkw with hkw | ⟨hkw, hno⟩
  · subst hkw
    have hsplit : ("weather in".data : Str) ++ x = ("weather".data) ++ ((" in".data) ++ x) := by
      rw [show ("weather in".data : Str) = ("weather".data) ++ (" in".data) from rfl,
        List.append_assoc]
    have hw7 : startsWith ("weather".data) ((pyLower cmd).drop p.length) = true := by
      rw [hc, List.append_assoc, dropLenAppend, hsplit]
      exact startsWith_self_append _ _
    have hweather : weatherKw (pyLower cmd) = true := by
      simp [weatherKw, containsSub_of_startsWith_drop (pyLower cmd) ("weather".data) p.length hw7]
    have hfind : findSub ("weather in".data) (pyLower cmd) = some p.length := by
      rw [hc, List.append_assoc]
      refine findSub_of_no_early ("weather in".data) p (("weather in".data) ++ x)
        (startsWith_self_append _ _) ?_
      intro j hj
      rw [← List.append_assoc, ← hc]
      exact hfirst j hj
    have hcontains : containsSub (pyLower cmd) ("weather in".data) = true := by
      simp [containsSub, hfind]
    have hdropx : List.drop (p.length + ("weather in".data).length) (pyLower cmd) = x := by
      rw [hc, List.append_assoc, ← List.drop_drop, dropLenAppend, dropLenAppend]
    have hloc : weatherLocation (pyLower cmd) = some (pyStrip x) := by
      simp only [weatherLocation, hcontains, Bool.true_or, if_true, hfind, Option.getD_some]
      rw [hdropx]
    simp only [dispatch, ht, Bool.false_eq_true, if_false, hweather, if_true]
    rw [hloc]
  · subst hkw
    have hsplit : ("weather at".data : Str) ++ x = ("weather".data) ++ ((" at".data) ++ x) := by
      rw [show ("weather at".data : Str) = ("weather".data) ++ (" at".data) from rfl,
        List.append_assoc]
    have hw7 : startsWith ("weather".data) ((pyLower cmd).drop p.length) = true := by
      rw [hc, List.append_assoc, dropLenAppend, hsplit]
      exact startsWith_self_append _ _
    have hweather : weatherKw (pyLower cmd) = true := by
      simp [weatherKw, containsSub_of_startsWith_drop (pyLower cmd) ("weather".data) p.length hw7]
    have hfind : findSub ("weather at".data) (pyLower cmd) = some p.length := by
      rw [hc, List.append_assoc]
      refine findSub_of_no_early ("weather at".data) p (("weather at".data) ++ x)
        (startsWith_self_append _ _) ?_
      intro j hj
      rw [← List.append_assoc, ← hc]
      exact hfirst j hj
    have hcontains : containsSub (pyLower cmd) ("weather at".data) = true := by
      simp [containsSub, hfind]
    have hdropx : List.drop (p.length + ("weather at".data).length) (pyLower cmd) = x := by
      rw [hc, List.append_assoc, ← List.drop_drop, dropLenAppend, dropLenAppend]
    have hloc : weatherLocation (pyLower cmd) = some (pyStrip x) := by
      simp only [weatherLocation, hno, hcontains, Bool.false_or, if_true, Bool.false_eq_true,
        if_false, hfind, Option.getD_some]
      rw [hdropx]
    simp only [dispatch, ht, Bool.false_eq_true, if_false, hweather, if_true]
    rw [hloc]

/-- Witness for the amended C6, exercising the weather-at case (no weather-in
present) at a concrete command with an untrimmed location. -/
theorem claim6_amended_location_witness :
    dispatch (fun l => { text := l.getD ("na".data) }) false (NewsApiResp.err []) 7
        ("what weather at nice".data) []
      = (weatherResponse ((fun (l : Option Str) => ({ text := l.getD ("na".data) } : WeatherResult))
          (some (pyStrip (" nice".data)))), []) :=
  claim6_amended_location (fun l => { text := l.getD ("na".data) }) false (NewsApiResp.err []) 7
    ("what weather at nice".data) [] ("what ".data) (" nice".data) ("weather at".data)
    (Or.inr ⟨rfl, by decide⟩) (by decide) (by decide) (by decide)

/-- Counterexample to C6 as stated: the command weather in Tokyo contains the
literal phrase weather-in followed by X equal to space-Tokyo, whose trimming
is Tokyo; yet the location handed to the weather lookup (echoed into the
response text by the recording collaborator) is tokyo, the lowercased form, so
the location does not equal X trimmed. -/
theorem claim6_counterexample :
    (dispatch (fun l => { text := l.getD ("na".data) }) false (NewsApiResp.err []) 0
        ("weather in Tokyo".data) []).1.text = ("tokyo".data)
    ∧ pyStrip (" Tokyo".data) = ("Tokyo".data)
    ∧ ("tokyo".data) ≠ ("Tokyo".data) := by decide

end VoiceAssistant
